import Mathlib

/-!
Shallow embedding of the ResolveIt case-management workflow engine.

The definitions below are translated from the repository's Express route
handlers and middleware:
  * `POST /api/auth/register`            (auth routes)            → `register`
  * `requireAdmin` middleware            (middleware/auth.ts)     → `requireAdmin`
  * `POST /api/cases`                    (cases routes)           → `createCase`
  * `POST /api/cases/:id/respond`        (cases routes)           → `respondToCase`
  * `POST /api/cases/:id/witnesses`      (cases routes)           → `nominateWitnesses`
  * `GET  /api/cases/:id` (caseHistory)  (cases routes)           → `getCaseHistory`
  * `PUT  /api/admin/cases/:id/status`   (routes/admin.ts)        → `setStatus`
  * `POST /api/admin/cases/:id/panel`    (routes/admin.ts)        → `createPanel`

The database is a record of lists (one per Prisma model used by the
handlers).  Each handler is split into a read/precondition phase and a list
of primitive writes (`DbWrite`); the handler applies the writes in the same
order as the source code awaits the corresponding `prisma.*` calls.  The
source code never wraps these writes in `prisma.$transaction`, so a write
that throws leaves the earlier writes of the same invocation in place; this
is modelled by `applyUntilFailure`, which applies only the writes preceding
the failing one.

Out-of-scope plumbing is omitted exactly where the spec declares it external:
evidence/blob upload, JWT parsing, rate limiting, and the fire-and-forget
socket pushes (`io.emit`), none of which touch the relational state the
claims are about.
-/

namespace ResolveIt

/-- Case status enum (Prisma `CaseStatus`, closed set). -/
inductive CaseStatus where
  | PENDING
  | AWAITING_RESPONSE
  | ACCEPTED
  | WITNESSES_NOMINATED
  | PANEL_CREATED
  | MEDIATION_IN_PROGRESS
  | RESOLVED
  | UNRESOLVED
  | CANCELLED
deriving DecidableEq

/-- String rendering of a status, used by the admin handler's
template-literal description (`Status changed from ... to ...`). -/
def statusName : CaseStatus → String
  | .PENDING => "PENDING"
  | .AWAITING_RESPONSE => "AWAITING_RESPONSE"
  | .ACCEPTED => "ACCEPTED"
  | .WITNESSES_NOMINATED => "WITNESSES_NOMINATED"
  | .PANEL_CREATED => "PANEL_CREATED"
  | .MEDIATION_IN_PROGRESS => "MEDIATION_IN_PROGRESS"
  | .RESOLVED => "RESOLVED"
  | .UNRESOLVED => "UNRESOLVED"
  | .CANCELLED => "CANCELLED"

/-- User role enum. -/
inductive Role where
  | USER
  | ADMIN
deriving DecidableEq

/-- A registered user (fields of the `user` model the handlers read). -/
structure User where
  id : Nat
  email : String
  phone : Option String
  name : String
  role : Role
deriving DecidableEq

/-- A case row: the fields of the `case` model the workflow reads/writes. -/
structure Case where
  id : Nat
  caseNumber : String
  status : CaseStatus
  complainantId : Nat
  respondentId : Option Nat
  respondentAccepted : Option Bool
deriving DecidableEq

/-- The structured `metadata` JSON written by the admin handlers. -/
structure Metadata where
  adminId : Option Nat
  previousStatus : Option CaseStatus
  newStatus : Option CaseStatus
  reason : Option String
deriving DecidableEq

/-- One `caseHistory` row (the spec's AuditEntry). -/
structure AuditEntry where
  caseId : Nat
  action : String
  description : String
  performedById : Option Nat
  metadata : Option Metadata
  createdAt : Nat
deriving DecidableEq

/-- One `notification` row. -/
structure Notification where
  userId : Nat
  caseId : Option Nat
  ntype : String
  title : String
deriving DecidableEq

/-- One `witness` row, as built by the nomination handler. -/
structure Witness where
  caseId : Nat
  name : String
  email : String
  phone : String
  relationship : String
  statement : Option String
deriving DecidableEq

/-- One `mediationPanel` row. -/
structure Panel where
  caseId : Nat
  lawyerId : Nat
  religiousScholarId : Option Nat
  societyMemberId : Option Nat
deriving DecidableEq

/-- The relational state touched by the workflow handlers.  `now` is a
logical clock stamped onto `caseHistory.createdAt` so that creation order
is observable (Prisma's `@default(now())`). -/
structure Db where
  users : List User
  cases : List Case
  caseHistory : List AuditEntry
  notifications : List Notification
  witnesses : List Witness
  panels : List Panel
  now : Nat
deriving DecidableEq

/-- An HTTP-level error response (`res.status(code).json({error: message})`). -/
structure Err where
  code : Nat
  message : String
deriving DecidableEq

/-- One primitive persistence write, i.e. one awaited `prisma.*` call. -/
inductive DbWrite where
  | insertCase (c : Case)
  | updateCaseStatus (caseId : Nat) (s : CaseStatus)
  | respondUpdate (caseId : Nat) (accepted : Bool) (s : CaseStatus)
  | insertHistory (h : AuditEntry)
  | insertNotif (n : Notification)
  | insertWitnesses (ws : List Witness)
  | insertPanel (p : Panel)
deriving DecidableEq

/-- Apply one write.  `insertWitnesses` models `createMany` with
`skipDuplicates: true`: rows colliding with an existing row on the
table's dedup key (same case, same email — the key inferred by the spec's
design note) are silently skipped, not reported. -/
def applyWrite (db : Db) : DbWrite → Db
  | .insertCase c => { db with cases := db.cases ++ [c] }
  | .updateCaseStatus i s =>
      { db with cases := db.cases.map fun c =>
          if c.id = i then { c with status := s } else c }
  | .respondUpdate i acc s =>
      { db with cases := db.cases.map fun c =>
          if c.id = i then { c with status := s, respondentAccepted := some acc } else c }
  | .insertHistory h =>
      { db with caseHistory := db.caseHistory ++ [{ h with createdAt := db.now }],
                now := db.now + 1 }
  | .insertNotif n => { db with notifications := db.notifications ++ [n] }
  | .insertWitnesses ws =>
      { db with witnesses := db.witnesses ++ ws.filter fun w =>
          !(db.witnesses.any fun w0 => w0.caseId == w.caseId && w0.email == w.email) }
  | .insertPanel p => { db with panels := db.panels ++ [p] }

/-- Apply a handler's whole write sequence (the success path). -/
def applyWrites (db : Db) (ws : List DbWrite) : Db :=
  ws.foldl applyWrite db

/-- The state left behind when the write at index `failAt` throws: the
handlers run their writes as bare sequential awaits inside a try/catch that
only answers 500 — there is no `$transaction`, so the first `failAt` writes
persist and nothing is rolled back. -/
def applyUntilFailure (db : Db) (ws : List DbWrite) (failAt : Nat) : Db :=
  applyWrites db (ws.take failAt)

/-- History rows added by an operation that turned `db` into `db'`
(all inserts append, so the old table is a prefix of the new one). -/
def newHistory (db db' : Db) : List AuditEntry :=
  db'.caseHistory.drop db.caseHistory.length

/-- Notification rows added by an operation that turned `db` into `db'`. -/
def newNotifs (db db' : Db) : List Notification :=
  db'.notifications.drop db.notifications.length

/-- `prisma.user.findUnique({where: {email}})` (email is `@unique`). -/
def findUserByEmail (db : Db) (email : String) : Option User :=
  db.users.find? fun u => u.email == email

/-! ### POST /api/auth/register -/

/-- Registration after express-validator field checks pass: reject if a
user already exists with the email or (when given) the phone, otherwise
create the user; the role is `ADMIN` exactly when the email is the
hard-coded `admin@resolveit.com`. -/
def register (db : Db) (newId : Nat) (email : String) (phone : Option String)
    (name : String) : Except Err (Db × User) :=
  if db.users.any (fun u =>
      u.email == email ||
        (match phone with
         | some p => u.phone == some p
         | none => false)) then
    .error { code := 409, message := "User already exists with this email or phone number" }
  else
    let u : User :=
      { id := newId, email := email, phone := phone, name := name,
        role := if email == "admin@resolveit.com" then .ADMIN else .USER }
    .ok ({ db with users := db.users ++ [u] }, u)

/-- `requireAdmin` middleware: pass callers whose role is ADMIN, answer 403
for everyone else.  (The missing-user 401 branch is handled upstream by
`authenticate`, which already resolved `req.user`.) -/
def requireAdmin (u : User) : Except Err Unit :=
  if u.role == .ADMIN then .ok ()
  else .error { code := 403, message := "Admin access required" }

/-! ### POST /api/cases -/

/-- The body fields of a create-case request that survive express-validator
(`escape`/length checks are upstream; absent optional fields are `none`). -/
structure CreateCasePayload where
  caseType : String
  issueDescription : String
  oppositePartyName : String
  oppositePartyEmail : Option String
  oppositePartyPhone : Option String
  isInCourt : Bool
  isInPoliceStation : Bool
  courtCaseNumber : Option String
  courtName : Option String
  firNumber : Option String
  policeStationName : Option String
  priority : String
deriving DecidableEq

/-- The handler's explicit legal-proceedings checks (the two early 400s). -/
def legalProceedingsError (p : CreateCasePayload) : Option Err :=
  if p.isInCourt && (p.courtCaseNumber.isNone || p.courtName.isNone) then
    some { code := 400,
           message := "Court case number and court name are required when case is in court" }
  else if p.isInPoliceStation && (p.firNumber.isNone || p.policeStationName.isNone) then
    some { code := 400,
           message := "FIR number and police station name are required when case is with police" }
  else none

/-- Respondent auto-link: look the opposite party's email up in the user
table; a hit becomes the case's `respondentId`. -/
def resolveRespondent (db : Db) (p : CreateCasePayload) : Option Nat :=
  match p.oppositePartyEmail with
  | some e => (findUserByEmail db e).map User.id
  | none => none

/-- The write sequence of a successful create-case invocation, in source
order: case insert (status PENDING), history entry, complainant
notification, then — only when a respondent was linked — the respondent
notification and the status bump to AWAITING_RESPONSE. -/
def createCaseWrites (db : Db) (callerId : Nat) (p : CreateCasePayload)
    (newId : Nat) (caseNumber : String) : List DbWrite :=
  let respondentId := resolveRespondent db p
  let newCase : Case :=
    { id := newId, caseNumber := caseNumber, status := .PENDING,
      complainantId := callerId, respondentId := respondentId,
      respondentAccepted := none }
  [ .insertCase newCase,
    .insertHistory
      { caseId := newId, action := "CASE_CREATED",
        description := "Case registered successfully",
        performedById := some callerId, metadata := none, createdAt := 0 },
    .insertNotif
      { userId := callerId, caseId := some newId, ntype := "CASE_STATUS_UPDATE",
        title := "Case Registered Successfully" } ]
  ++ match respondentId with
     | some rid =>
        [ .insertNotif
            { userId := rid, caseId := some newId, ntype := "CASE_STATUS_UPDATE",
              title := "New Case Filed Against You" },
          .updateCaseStatus newId .AWAITING_RESPONSE ]
     | none => []

/-- `POST /api/cases` after field validation: run the legal-proceedings
checks, then apply the write sequence.  `newId`/`caseNumber` stand for the
generated cuid and `RES-<year>-<digits>` number. -/
def createCase (db : Db) (callerId : Nat) (p : CreateCasePayload)
    (newId : Nat) (caseNumber : String) : Except Err Db :=
  match legalProceedingsError p with
  | some e => .error e
  | none => .ok (applyWrites db (createCaseWrites db callerId p newId caseNumber))

/-! ### POST /api/cases/:id/respond -/

/-- The `findFirst` filter of the respond handler: one combined lookup
requiring the id, the caller to be the linked respondent, and the status to
be AWAITING_RESPONSE. -/
def respondPred (callerId caseId : Nat) (c : Case) : Bool :=
  c.id == caseId && c.respondentId == some callerId && c.status == .AWAITING_RESPONSE

/-- The single error the respond handler gives for a missing case, a wrong
caller, or a wrong status alike. -/
def respondNotFoundErr : Err :=
  { code := 404, message := "Case not found or you cannot respond to this case" }

/-- Write sequence of a successful respond: the case update (status
ACCEPTED on accept, UNRESOLVED on reject), one history entry, one
notification for the complainant. -/
def respondWrites (c : Case) (callerId : Nat) (accepted : Bool) : List DbWrite :=
  [ .respondUpdate c.id accepted (if accepted then .ACCEPTED else .UNRESOLVED),
    .insertHistory
      { caseId := c.id,
        action := if accepted then "CASE_ACCEPTED" else "CASE_REJECTED",
        description :=
          "Respondent " ++ (if accepted then "accepted" else "rejected") ++ " the case",
        performedById := some callerId, metadata := none, createdAt := 0 },
    .insertNotif
      { userId := c.complainantId, caseId := some c.id,
        ntype := "CASE_STATUS_UPDATE", title := "Case Response Received" } ]

/-- `POST /api/cases/:id/respond`. -/
def respondToCase (db : Db) (callerId caseId : Nat) (accepted : Bool) :
    Except Err Db :=
  match db.cases.find? (respondPred callerId caseId) with
  | none => .error respondNotFoundErr
  | some c => .ok (applyWrites db (respondWrites c callerId accepted))

/-! ### POST /api/cases/:id/witnesses -/

/-- The `findFirst` filter of the witness handler: the caller must be the
complainant or the linked respondent and the status must be ACCEPTED. -/
def witnessCasePred (callerId caseId : Nat) (c : Case) : Bool :=
  c.id == caseId &&
    (c.complainantId == callerId || c.respondentId == some callerId) &&
    c.status == .ACCEPTED

/-- The witness row the handler builds per resolved user (the selected user
record has no phone, so `witness.phone || ""` is always `""`). -/
def witnessRow (caseId : Nat) (u : User) : Witness :=
  { caseId := caseId, name := u.name, email := u.email, phone := "",
    relationship := "Nominated Witness", statement := none }

/-- `POST /api/cases/:id/witnesses` after field validation.  Write order as
in the source: `witness.createMany` (with `skipDuplicates`), the status
update to WITNESSES_NOMINATED, one notification per resolved witness, then
the history entry. -/
def nominateWitnesses (db : Db) (callerId caseId : Nat)
    (witnessEmails : List String) : Except Err (Db × List User) :=
  match db.cases.find? (witnessCasePred callerId caseId) with
  | none =>
    .error { code := 404,
             message := "Case not found or you cannot add witnesses to this case" }
  | some _ =>
    let ws := db.users.filter fun u => witnessEmails.contains u.email
    if ws.length ≠ witnessEmails.length then
      .error { code := 400,
               message := "Some witnesses are not registered users. All witnesses must be registered." }
    else
      let writes :=
        [ DbWrite.insertWitnesses (ws.map (witnessRow caseId)),
          .updateCaseStatus caseId .WITNESSES_NOMINATED ]
        ++ ws.map (fun u => DbWrite.insertNotif
             { userId := u.id, caseId := some caseId,
               ntype := "CASE_STATUS_UPDATE", title := "Added as Witness" })
        ++ [ .insertHistory
              { caseId := caseId, action := "WITNESSES_ADDED",
                description := toString ws.length ++ " witnesses nominated",
                performedById := some callerId, metadata := none, createdAt := 0 } ]
      .ok (applyWrites db writes, ws)

/-! ### GET /api/cases/:id — the audit-history read -/

/-- The `findFirst` filter of the case read: the caller must be the
complainant or the linked respondent of the case. -/
def caseAccessPred (callerId caseId : Nat) (c : Case) : Bool :=
  c.id == caseId && (c.complainantId == callerId || c.respondentId == some callerId)

/-- The ordering the handler asks Prisma for: `orderBy: {createdAt: "desc"}`. -/
def historyDesc (a b : AuditEntry) : Prop :=
  b.createdAt ≤ a.createdAt

instance : DecidableRel historyDesc := fun a b =>
  inferInstanceAs (Decidable (b.createdAt ≤ a.createdAt))

instance : IsTotal AuditEntry historyDesc :=
  ⟨fun a b => Nat.le_total b.createdAt a.createdAt⟩

instance : IsTrans AuditEntry historyDesc :=
  ⟨fun _ _ _ h1 h2 => Nat.le_trans h2 h1⟩

/-- The `caseHistory` list included in a successful `GET /api/cases/:id`
response: the case's history rows, sorted by `createdAt` descending. -/
def getCaseHistory (db : Db) (callerId caseId : Nat) :
    Except Err (List AuditEntry) :=
  match db.cases.find? (caseAccessPred callerId caseId) with
  | none =>
    .error { code := 404,
             message := "Case not found or you do not have access to this case" }
  | some _ =>
    .ok (List.insertionSort historyDesc
      (db.caseHistory.filter fun h => h.caseId == caseId))

/-! ### PUT /api/admin/cases/:id/status -/

/-- Write sequence of the admin status override: the status write, the
history entry (action `STATUS_UPDATED_BY_ADMIN`, metadata carrying the old
and new status), a notification for the complainant and — when linked —
one for the respondent. -/
def setStatusWrites (c : Case) (adminId : Nat) (target : CaseStatus)
    (reason : Option String) : List DbWrite :=
  [ .updateCaseStatus c.id target,
    .insertHistory
      { caseId := c.id, action := "STATUS_UPDATED_BY_ADMIN",
        description :=
          "Status changed from " ++ statusName c.status ++ " to " ++ statusName target
            ++ (match reason with | some r => " - " ++ r | none => ""),
        performedById := none,
        metadata := some
          { adminId := some adminId, previousStatus := some c.status,
            newStatus := some target, reason := reason },
        createdAt := 0 },
    .insertNotif
      { userId := c.complainantId, caseId := some c.id,
        ntype := "CASE_STATUS_UPDATE", title := "Case Status Updated" } ]
  ++ match c.respondentId with
     | some rid =>
        [ .insertNotif
            { userId := rid, caseId := some c.id,
              ntype := "CASE_STATUS_UPDATE", title := "Case Status Updated" } ]
     | none => []

/-- `PUT /api/admin/cases/:id/status` (behind `authenticate`+`requireAdmin`):
the target status already passed the validator's `isIn` over the closed
enum, which the type `CaseStatus` captures.  No precondition on the current
status at all — any case, terminal or not, is overwritten. -/
def setStatus (db : Db) (adminId caseId : Nat) (target : CaseStatus)
    (reason : Option String) : Except Err Db :=
  match db.cases.find? (fun c => c.id == caseId) with
  | none => .error { code := 404, message := "Case not found" }
  | some c => .ok (applyWrites db (setStatusWrites c adminId target reason))

/-! ### POST /api/admin/cases/:id/panel -/

/-- Write sequence of a successful panel creation, in source order: panel
insert, status write to PANEL_CREATED, history entry (metadata has the
admin and panel members, no statuses), notifications for complainant,
linked respondent, and each panel member. -/
def createPanelWrites (c : Case) (adminId : Nat) (p : Panel)
    (members : List User) : List DbWrite :=
  [ .insertPanel p,
    .updateCaseStatus c.id .PANEL_CREATED,
    .insertHistory
      { caseId := c.id, action := "PANEL_CREATED",
        description := "Mediation panel created",
        performedById := none,
        metadata := some
          { adminId := some adminId, previousStatus := none,
            newStatus := none, reason := none },
        createdAt := 0 },
    .insertNotif
      { userId := c.complainantId, caseId := some c.id,
        ntype := "PANEL_ASSIGNMENT", title := "Mediation Panel Created" } ]
  ++ (match c.respondentId with
      | some rid =>
         [ .insertNotif
             { userId := rid, caseId := some c.id,
               ntype := "PANEL_ASSIGNMENT", title := "Mediation Panel Created" } ]
      | none => [])
  ++ members.map (fun m => DbWrite.insertNotif
       { userId := m.id, caseId := some c.id,
         ntype := "PANEL_ASSIGNMENT", title := "Assigned to Mediation Panel" })

/-- `POST /api/admin/cases/:id/panel` (behind `authenticate`+`requireAdmin`):
404 if the case is missing, 409 if a panel already exists, 400 unless the
status is WITNESSES_NOMINATED or ACCEPTED, 400 unless every supplied member
id resolves (`findMany` over the deduplicated id list). -/
def createPanel (db : Db) (adminId caseId lawyerId : Nat)
    (religiousScholarId societyMemberId : Option Nat) :
    Except Err (Db × Panel) :=
  match db.cases.find? (fun c => c.id == caseId) with
  | none => .error { code := 404, message := "Case not found" }
  | some c =>
    if db.panels.any (fun p => p.caseId == caseId) then
      .error { code := 409, message := "Mediation panel already exists for this case" }
    else if c.status ≠ .WITNESSES_NOMINATED ∧ c.status ≠ .ACCEPTED then
      .error { code := 400,
               message := "Case must be in WITNESSES_NOMINATED or ACCEPTED status to create a panel" }
    else
      let memberIds := [some lawyerId, religiousScholarId, societyMemberId].filterMap id
      let members := db.users.filter fun u => memberIds.contains u.id
      if members.length ≠ memberIds.length then
        .error { code := 400, message := "One or more panel members not found" }
      else
        let p : Panel :=
          { caseId := caseId, lawyerId := lawyerId,
            religiousScholarId := religiousScholarId,
            societyMemberId := societyMemberId }
        .ok (applyWrites db (createPanelWrites c adminId p members), p)

/-! ### cancelCase (spec-modelled) -/

/-- The spec's terminal statuses. -/
def terminalStatus : CaseStatus → Bool
  | .RESOLVED => true
  | .UNRESOLVED => true
  | .CANCELLED => true
  | _ => false

/-- The complainant's cancel window per the spec: only before ACCEPTED,
i.e. in PENDING or AWAITING_RESPONSE. -/
def complainantCancelWindow : CaseStatus → Bool
  | .PENDING => true
  | .AWAITING_RESPONSE => true
  | _ => false

/-- Modelled from the spec: the repository exposes no cancelCase route
(only the CANCELLED enum value exists in the source), so this follows the
spec's words — `cancelCase(caseId, callerId)`: an admin may cancel any
non-terminal case; the complainant may cancel only before ACCEPTED and is
answered FORBIDDEN once the window is closed; any other caller is
FORBIDDEN; success sets the terminal status CANCELLED. -/
def cancelCase (db : Db) (callerId caseId : Nat) : Except Err Db :=
  match db.cases.find? (fun c => c.id == caseId) with
  | none => .error { code := 404, message := "Case not found" }
  | some c =>
    match db.users.find? (fun u => u.id == callerId) with
    | none => .error { code := 401, message := "Authentication required" }
    | some u =>
      if u.role == .ADMIN then
        if terminalStatus c.status then
          .error { code := 409, message := "Case is already in a terminal status" }
        else .ok (applyWrites db [.updateCaseStatus caseId .CANCELLED])
      else if c.complainantId == callerId then
        if complainantCancelWindow c.status then
          .ok (applyWrites db [.updateCaseStatus caseId .CANCELLED])
        else .error { code := 403, message := "Complainant may cancel only before ACCEPTED" }
      else .error { code := 403, message := "Not allowed to cancel this case" }

/-! ### Concrete sample data used by the claim theorems and witnesses -/

/-- Sample complainant. -/
def u1 : User := ⟨1, "alice@example.com", some "1111111111", "Alice", .USER⟩

/-- Sample respondent. -/
def u2 : User := ⟨2, "bob@example.com", some "2222222222", "Bob", .USER⟩

/-- Sample witness user. -/
def u3 : User := ⟨3, "w@example.com", some "3333333333", "Wit", .USER⟩

/-- Sample administrator (the hard-coded admin email). -/
def uAdmin : User := ⟨9, "admin@resolveit.com", none, "Admin", .ADMIN⟩

/-- A create-case payload that passes validation, with no opposite-party
email supplied. -/
def basePayload : CreateCasePayload :=
  { caseType := "FAMILY",
    issueDescription := "A long-running disagreement about shared property boundaries.",
    oppositePartyName := "Bob B",
    oppositePartyEmail := none, oppositePartyPhone := none,
    isInCourt := false, isInPoliceStation := false,
    courtCaseNumber := none, courtName := none, firNumber := none,
    policeStationName := none, priority := "MEDIUM" }

/-- The same payload with an opposite-party email that resolves to `u2`. -/
def payloadLinked : CreateCasePayload :=
  { basePayload with oppositePartyEmail := some "bob@example.com" }

/-- Two registered users, no cases yet. -/
def db1 : Db :=
  { users := [u1, u2], cases := [], caseHistory := [], notifications := [],
    witnesses := [], panels := [], now := 0 }

/-- State left behind when the audit write (index 1) of a create-case
invocation on `db1` throws: only the writes before it persist. -/
def db1fail : Db :=
  applyUntilFailure db1 (createCaseWrites db1 1 payloadLinked 10 "RES-2025-000001") 1

/-- Result of creating a case on `db1` with the linked payload. -/
def db3r : Db :=
  match createCase db1 1 payloadLinked 10 "RES-2025-000001" with
  | .ok d => d
  | .error _ => db1

/-- A case awaiting the respondent's answer. -/
def case10 : Case := ⟨10, "RES-2025-000010", .AWAITING_RESPONSE, 1, some 2, none⟩

/-- An already accepted case (wrong status for responding). -/
def case11 : Case := ⟨11, "RES-2025-000011", .ACCEPTED, 1, some 2, none⟩

/-- Database for the respond-to-case claims. -/
def db4 : Db :=
  { users := [u1, u2], cases := [case10, case11], caseHistory := [],
    notifications := [], witnesses := [], panels := [], now := 0 }

/-- Result of the respondent accepting `case10`. -/
def db4r : Db :=
  match respondToCase db4 2 10 true with
  | .ok d => d
  | .error _ => db4

/-- An accepted case for the witness-nomination claims. -/
def case12 : Case := ⟨12, "RES-2025-000012", .ACCEPTED, 1, some 2, none⟩

/-- The witness identity of `u3`, already nominated for `case12`. -/
def w0 : Witness := ⟨12, "Wit", "w@example.com", "", "Nominated Witness", none⟩

/-- Database where `u3` is already nominated on `case12`. -/
def db6 : Db :=
  { users := [u1, u2, u3], cases := [case12], caseHistory := [],
    notifications := [], witnesses := [w0], panels := [], now := 0 }

/-- Result of the complainant nominating the already-nominated `u3`. -/
def db6r : Db :=
  match nominateWitnesses db6 1 12 ["w@example.com"] with
  | .ok (d, _) => d
  | .error _ => db6

/-- A case with two history rows for the ordering claim. -/
def case13 : Case := ⟨13, "RES-2025-000013", .AWAITING_RESPONSE, 1, some 2, none⟩

/-- The older history row of `case13` (created at time 0). -/
def h7a : AuditEntry :=
  ⟨13, "CASE_CREATED", "Case registered successfully", some 1, none, 0⟩

/-- The newer history row of `case13` (created at time 1). -/
def h7b : AuditEntry :=
  ⟨13, "STATUS_UPDATED_BY_ADMIN",
   "Status changed from PENDING to AWAITING_RESPONSE", none,
   some ⟨some 9, some .PENDING, some .AWAITING_RESPONSE, none⟩, 1⟩

/-- Database for the history-ordering claim. -/
def db7 : Db :=
  { users := [u1, u2], cases := [case13], caseHistory := [h7a, h7b],
    notifications := [], witnesses := [], panels := [], now := 2 }

/-- A pending case with no respondent, for the admin-override claims. -/
def case14 : Case := ⟨14, "RES-2025-000014", .PENDING, 1, none, none⟩

/-- Database for the admin-override claims. -/
def db8 : Db :=
  { users := [u1, uAdmin], cases := [case14], caseHistory := [],
    notifications := [], witnesses := [], panels := [], now := 0 }

/-- Result of the admin overriding `case14` straight to RESOLVED. -/
def db8r : Db :=
  match setStatus db8 9 14 .RESOLVED none with
  | .ok d => d
  | .error _ => db8

/-- An accepted case, past the complainant's cancel window. -/
def case15 : Case := ⟨15, "RES-2025-000015", .ACCEPTED, 1, some 2, none⟩

/-- Database for the cancel-case claim. -/
def db9 : Db :=
  { users := [u1, u2, uAdmin], cases := [case14, case15], caseHistory := [],
    notifications := [], witnesses := [], panels := [], now := 0 }

end ResolveIt

namespace ResolveIt

/-! ## Helper lemmas -/

/-- After a status-update write, every case carrying the updated id holds
the written status. -/
theorem status_after_update (l : List Case) (i : Nat) (s : CaseStatus) :
    ∀ c' ∈ l.map (fun c => if c.id = i then { c with status := s } else c),
      c'.id = i → c'.status = s := by
  intro c' hmem hid
  obtain ⟨x, hx, rfl⟩ := List.mem_map.1 hmem
  by_cases hxi : x.id = i
  · simp [hxi]
  · simp [hxi] at hid

/-- After the respond handler's case update, every case carrying the
updated id holds the written status. -/
theorem status_after_respondUpdate (l : List Case) (i : Nat) (acc : Bool)
    (s : CaseStatus) :
    ∀ c' ∈ l.map (fun c =>
        if c.id = i then { c with status := s, respondentAccepted := some acc } else c),
      c'.id = i → c'.status = s := by
  intro c' hmem hid
  obtain ⟨x, hx, rfl⟩ := List.mem_map.1 hmem
  by_cases hxi : x.id = i
  · simp [hxi]
  · simp [hxi] at hid

/-- Applying a batch of notification inserts only appends to the
notification table. -/
theorem applyWrites_map_insertNotif {α : Type} (f : α → Notification)
    (l : List α) (db : Db) :
    applyWrites db (l.map fun a => DbWrite.insertNotif (f a)) =
      { db with notifications := db.notifications ++ l.map f } := by
  induction l generalizing db with
  | nil => simp [applyWrites]
  | cons a as ih =>
      simp only [List.map_cons, applyWrites, List.foldl_cons]
      have h1 : applyWrite db (DbWrite.insertNotif (f a)) =
          { db with notifications := db.notifications ++ [f a] } := rfl
      rw [h1]
      have h2 := ih { db with notifications := db.notifications ++ [f a] }
      simp only [applyWrites] at h2
      rw [h2]
      simp


/-- Unfolding lemma: applying no writes is the identity. -/
theorem applyWrites_nil (db : Db) : applyWrites db [] = db := rfl

/-- Unfolding lemma: writes apply left to right. -/
theorem applyWrites_cons (db : Db) (w : DbWrite) (ws : List DbWrite) :
    applyWrites db (w :: ws) = applyWrites (applyWrite db w) ws := rfl

/-- Unfolding lemma: a concatenated write sequence applies in two stages. -/
theorem applyWrites_append (db : Db) (l1 l2 : List DbWrite) :
    applyWrites db (l1 ++ l2) = applyWrites (applyWrites db l1) l2 :=
  List.foldl_append applyWrite db l1 l2

/-! ## Claim theorems -/

/-- C1: the claim says every workflow operation applies all of its writes
in a single atomic unit, leaving no partial case/audit/notification state
when a persistence step fails.  The code is wrong: the handlers run their
`prisma` writes as bare sequential awaits (never `prisma.$transaction`,
which the repository's own documentation prescribes for exactly this write
sequence), so when the audit write of a create-case invocation throws, the
already-inserted case row persists and no rollback happens.  This theorem
evaluates the code at that failing input: the success path is exactly the
write sequence, and failing at write index 1 leaves the case row behind
with no audit entry and no notification — a partial effect. -/
theorem C1_no_rollback_on_failure :
    createCase db1 1 payloadLinked 10 "RES-2025-000001" =
      .ok (applyWrites db1 (createCaseWrites db1 1 payloadLinked 10 "RES-2025-000001")) ∧
    db1fail.cases.length = 1 ∧
    db1fail.caseHistory = [] ∧
    db1fail.notifications = [] ∧
    db1fail ≠ db1 := by
  refine ⟨rfl, rfl, rfl, rfl, ?_⟩
  decide

/-- C2 counterexample: the claim says the one AuditEntry of every
successful state-changing operation records `previousStatus`/`newStatus`
matching the actual transition.  At this concrete input the respondent
accepts an AWAITING_RESPONSE case; exactly one history row is created, but
its metadata is `none` — the respond handler records no statuses at all,
so the recorded fields cannot match the AWAITING_RESPONSE → ACCEPTED
transition. -/
theorem C2_counterexample :
    respondToCase db4 2 10 true = .ok db4r ∧
    (newHistory db4 db4r).map AuditEntry.metadata = [none] := by
  exact ⟨rfl, rfl⟩

/-- C5 counterexample: the claim says a wrong caller is answered with a
FORBIDDEN-class (403) error and a wrong status with a CONFLICT-class (409)
error naming the statuses.  The handler uses one combined `findFirst` and
answers the same 404 ("Case not found or you cannot respond to this case")
in both situations: caller 3 is not the respondent of `case10`, and
`case11` is ACCEPTED rather than AWAITING_RESPONSE, yet both calls get
the identical 404 error, which is neither 403 nor 409 and names no
status. -/
theorem C5_counterexample :
    respondToCase db4 3 10 true = .error respondNotFoundErr ∧
    respondToCase db4 2 11 false = .error respondNotFoundErr ∧
    respondNotFoundErr.code = 404 ∧
    respondNotFoundErr.code ≠ 403 ∧
    respondNotFoundErr.code ≠ 409 := by
  refine ⟨rfl, rfl, rfl, ?_, ?_⟩ <;> decide

/-- C6 counterexample: the claim says nominating an identity already
nominated for the same case is rejected with a CONFLICT-class error.  Here
`u3` is already a witness of the ACCEPTED `case12`, yet the complainant's
nomination of the same email succeeds (no error) and the duplicate row is
silently dropped by `createMany`'s `skipDuplicates` — the witness table is
unchanged. -/
theorem C6_counterexample :
    nominateWitnesses db6 1 12 ["w@example.com"] = .ok (db6r, [u3]) ∧
    db6r.witnesses = db6.witnesses := by
  exact ⟨rfl, rfl⟩

/-- C7 counterexample: the claim says the history list returned to an
authorized caller is ordered oldest-to-newest.  `db7` holds two history
rows for `case13`, created at times 0 and 1; the handler asks for
`orderBy createdAt desc`, so the complainant receives the newer row first
— the returned list is not in oldest-to-newest order. -/
theorem C7_counterexample :
    getCaseHistory db7 1 13 = .ok [h7b, h7a] ∧
    ¬ (h7b.createdAt ≤ h7a.createdAt) := by
  refine ⟨rfl, ?_⟩
  decide

/-- C8 counterexample: the claim says the admin override records an
AuditEntry with action kind "ADMIN_OVERRIDE".  Overriding the PENDING
`case14` straight to RESOLVED succeeds and creates exactly one history
row, but its action is "STATUS_UPDATED_BY_ADMIN", not "ADMIN_OVERRIDE". -/
theorem C8_counterexample :
    setStatus db8 9 14 .RESOLVED none = .ok db8r ∧
    (newHistory db8 db8r).map AuditEntry.action = ["STATUS_UPDATED_BY_ADMIN"] ∧
    ("STATUS_UPDATED_BY_ADMIN" : String) ≠ "ADMIN_OVERRIDE" := by
  refine ⟨rfl, rfl, ?_⟩
  decide

/-- C4: for every case in AWAITING_RESPONSE whose linked respondent is the
caller, respondToCase with accepted=true sets the case status to ACCEPTED,
and with accepted=false to UNRESOLVED. -/
theorem C4_respond_sets_status (db : Db) (callerId caseId : Nat)
    (accepted : Bool) (c : Case)
    (h : db.cases.find? (respondPred callerId caseId) = some c) :
    ∃ db', respondToCase db callerId caseId accepted = .ok db' ∧
      ∀ c' ∈ db'.cases, c'.id = caseId →
        c'.status = (if accepted then CaseStatus.ACCEPTED else .UNRESOLVED) := by
  have hp : respondPred callerId caseId c = true := List.find?_some h
  have hid : c.id = caseId := by
    simp only [respondPred, Bool.and_eq_true, beq_iff_eq] at hp
    exact hp.1.1
  refine ⟨applyWrites db (respondWrites c callerId accepted), ?_, ?_⟩
  · simp [respondToCase, h]
  · have hcases :
        (applyWrites db (respondWrites c callerId accepted)).cases =
          db.cases.map (fun x =>
            if x.id = caseId then
              { x with status := if accepted then CaseStatus.ACCEPTED else .UNRESOLVED,
                       respondentAccepted := some accepted }
            else x) := by
      simp [applyWrites, respondWrites, applyWrite, hid]
    rw [hcases]
    exact status_after_respondUpdate db.cases caseId accepted _

/-- C5 amended: whenever the caller is not the linked respondent or the
case status is not AWAITING_RESPONSE (or the case does not exist at all),
respondToCase fails with the single combined NOT_FOUND-class (404) error
"Case not found or you cannot respond to this case" — not with separate
FORBIDDEN/CONFLICT errors and without naming any status — and performs no
write, so the case record is unchanged. -/
theorem C5_respond_failure_is_404 (db : Db) (callerId caseId : Nat)
    (accepted : Bool)
    (h : ∀ c ∈ db.cases, c.id = caseId →
      c.respondentId ≠ some callerId ∨ c.status ≠ .AWAITING_RESPONSE) :
    respondToCase db callerId caseId accepted = .error respondNotFoundErr ∧
    respondNotFoundErr.code = 404 := by
  have hn : db.cases.find? (respondPred callerId caseId) = none := by
    rw [List.find?_eq_none]
    intro c hc
    simp only [respondPred, Bool.and_eq_true, beq_iff_eq, not_and]
    rintro ⟨hid, hresp⟩ hst
    rcases h c hc hid with h1 | h1
    · exact h1 hresp
    · exact h1 hst
  exact ⟨by simp [respondToCase, hn], rfl⟩

/-- C7 amended: the history list returned to an authorized caller from the
case read is ordered newest-to-oldest (descending creation time) and is a
permutation of exactly the case's audit rows. -/
theorem C7_history_sorted_desc (db : Db) (callerId caseId : Nat)
    (l : List AuditEntry)
    (h : getCaseHistory db callerId caseId = .ok l) :
    List.Sorted historyDesc l ∧
    l.Perm (db.caseHistory.filter fun e => e.caseId == caseId) := by
  unfold getCaseHistory at h
  split at h
  · exact absurd h (by simp)
  · have hl : List.insertionSort historyDesc
        (db.caseHistory.filter fun e => e.caseId == caseId) = l := by
      injection h
    rw [← hl]
    exact ⟨List.sorted_insertionSort historyDesc _,
           List.perm_insertionSort historyDesc _⟩

/-- C10: a registration that passes field validation creates a user whose
role is ADMIN exactly when the submitted email is admin@resolveit.com, and
the requireAdmin middleware guarding every admin route passes a caller
exactly when that caller's role is ADMIN. -/
theorem C10_admin_role_gate :
    (∀ db newId email phone name db' u,
        register db newId email phone name = .ok (db', u) →
        (u.role = Role.ADMIN ↔ email = "admin@resolveit.com")) ∧
    (∀ u : User, requireAdmin u = .ok () ↔ u.role = Role.ADMIN) := by
  constructor
  · intro db newId email phone name db' u h
    unfold register at h
    split at h
    · simp at h
    · simp only [Except.ok.injEq, Prod.mk.injEq] at h
      obtain ⟨-, rfl⟩ := h
      by_cases he : email = "admin@resolveit.com" <;>
        simp [he]
  · intro u
    unfold requireAdmin
    by_cases hr : u.role = .ADMIN <;> simp [hr]

/-- C8 amended: for every existing case in any status (terminal ones
included) and every target in the closed status enum, the admin setStatus
override succeeds, sets the case to the target status, and records exactly
one AuditEntry whose action kind is "STATUS_UPDATED_BY_ADMIN" (not
"ADMIN_OVERRIDE") with both the old and the new status in its metadata. -/
theorem C8_admin_override (db : Db) (adminId caseId : Nat)
    (target : CaseStatus) (reason : Option String) (c : Case)
    (h : db.cases.find? (fun c0 => c0.id == caseId) = some c) :
    ∃ db', setStatus db adminId caseId target reason = .ok db' ∧
      (∀ c' ∈ db'.cases, c'.id = caseId → c'.status = target) ∧
      newHistory db db' =
        [{ caseId := caseId, action := "STATUS_UPDATED_BY_ADMIN",
           description := "Status changed from " ++ statusName c.status ++ " to "
             ++ statusName target
             ++ (match reason with | some r => " - " ++ r | none => ""),
           performedById := none,
           metadata := some { adminId := some adminId,
                              previousStatus := some c.status,
                              newStatus := some target, reason := reason },
           createdAt := db.now }] := by
  have hid : c.id = caseId := by
    have hp := List.find?_some h
    simpa using hp
  refine ⟨applyWrites db (setStatusWrites c adminId target reason), ?_, ?_, ?_⟩
  · simp [setStatus, h]
  · have hcases :
        (applyWrites db (setStatusWrites c adminId target reason)).cases =
          db.cases.map (fun x =>
            if x.id = caseId then { x with status := target } else x) := by
      cases hr : c.respondentId <;>
        simp [applyWrites, setStatusWrites, applyWrite, hr, hid]
    rw [hcases]
    exact status_after_update db.cases caseId target
  · have hh :
        (applyWrites db (setStatusWrites c adminId target reason)).caseHistory =
          db.caseHistory ++
            [{ caseId := caseId, action := "STATUS_UPDATED_BY_ADMIN",
               description := "Status changed from " ++ statusName c.status ++ " to "
                 ++ statusName target
                 ++ (match reason with | some r => " - " ++ r | none => ""),
               performedById := none,
               metadata := some { adminId := some adminId,
                                  previousStatus := some c.status,
                                  newStatus := some target, reason := reason },
               createdAt := db.now }] := by
      cases hr : c.respondentId <;>
        simp [applyWrites, setStatusWrites, applyWrite, hr, hid]
    rw [newHistory, hh]
    simp

/-- C9 (modelled from the spec, which is the only place cancelCase exists):
a complainant cancel attempt on a case whose status is ACCEPTED or later
fails with a FORBIDDEN-class (403) error; an admin may cancel any
non-terminal case; every successful cancel sets the terminal status
CANCELLED. -/
theorem C9_cancel_policy :
    (∀ db callerId caseId c u,
        db.cases.find? (fun c0 => c0.id == caseId) = some c →
        db.users.find? (fun u0 => u0.id == callerId) = some u →
        u.role ≠ Role.ADMIN →
        c.complainantId = callerId →
        complainantCancelWindow c.status = false →
        cancelCase db callerId caseId =
          .error { code := 403,
                   message := "Complainant may cancel only before ACCEPTED" }) ∧
    (∀ db callerId caseId c u,
        db.cases.find? (fun c0 => c0.id == caseId) = some c →
        db.users.find? (fun u0 => u0.id == callerId) = some u →
        u.role = Role.ADMIN →
        terminalStatus c.status = false →
        ∃ db', cancelCase db callerId caseId = .ok db' ∧
          ∀ c' ∈ db'.cases, c'.id = caseId → c'.status = .CANCELLED) ∧
    (∀ db callerId caseId db',
        cancelCase db callerId caseId = .ok db' →
        ∀ c' ∈ db'.cases, c'.id = caseId → c'.status = .CANCELLED) := by
  refine ⟨?_, ?_, ?_⟩
  · intro db callerId caseId c u hc hu hrole hcomp hwin
    have hr : (u.role == Role.ADMIN) = false := by
      simp [hrole]
    have hcb : (c.complainantId == callerId) = true := by
      simp [hcomp]
    simp [cancelCase, hc, hu, hr, hcb, hwin]
  · intro db callerId caseId c u hc hu hrole hterm
    have hr : (u.role == Role.ADMIN) = true := by
      simp [hrole]
    refine ⟨applyWrites db [DbWrite.updateCaseStatus caseId .CANCELLED], ?_, ?_⟩
    · simp [cancelCase, hc, hu, hr, hterm]
    · have hcases :
          (applyWrites db [DbWrite.updateCaseStatus caseId .CANCELLED]).cases =
            db.cases.map (fun x =>
              if x.id = caseId then { x with status := .CANCELLED } else x) := by
        simp [applyWrites, applyWrite]
      rw [hcases]
      exact status_after_update db.cases caseId .CANCELLED
  · intro db callerId caseId db' h
    unfold cancelCase at h
    have hok : db' = applyWrites db [DbWrite.updateCaseStatus caseId .CANCELLED] := by
      split at h
      · simp at h
      · split at h
        · simp at h
        · split at h
          · split at h
            · simp at h
            · simp only [Except.ok.injEq] at h
              exact h.symm
          · split at h
            · split at h
              · simp only [Except.ok.injEq] at h
                exact h.symm
              · simp at h
            · simp at h
    subst hok
    have hcases :
        (applyWrites db [DbWrite.updateCaseStatus caseId .CANCELLED]).cases =
          db.cases.map (fun x =>
            if x.id = caseId then { x with status := .CANCELLED } else x) := by
      simp [applyWrites, applyWrite]
    rw [hcases]
    exact status_after_update db.cases caseId .CANCELLED

/-- C3: for every valid createCase payload on a store where the new case id
is fresh: when the opposite-party email resolves to a registered user the
resulting case ends in AWAITING_RESPONSE and exactly two notifications are
created, for the complainant and the linked respondent in that order; when
no respondent is resolvable the case ends in PENDING and exactly one
notification is created, for the complainant only. -/
theorem C3_createCase_status_notifs (db : Db) (callerId : Nat)
    (p : CreateCasePayload) (newId : Nat) (cn : String) (db' : Db)
    (h : createCase db callerId p newId cn = .ok db')
    (hfresh : ∀ c ∈ db.cases, c.id ≠ newId) :
    (∀ rid, resolveRespondent db p = some rid →
        (∀ c' ∈ db'.cases, c'.id = newId → c'.status = .AWAITING_RESPONSE) ∧
        (newNotifs db db').map Notification.userId = [callerId, rid]) ∧
    (resolveRespondent db p = none →
        (∀ c' ∈ db'.cases, c'.id = newId → c'.status = .PENDING) ∧
        (newNotifs db db').map Notification.userId = [callerId]) := by
  unfold createCase at h
  split at h
  · simp at h
  · simp only [Except.ok.injEq] at h
    subst h
    constructor
    · intro rid hr
      constructor
      · have hcases :
            (applyWrites db (createCaseWrites db callerId p newId cn)).cases =
              (db.cases ++
                [({ id := newId, caseNumber := cn, status := .PENDING,
                    complainantId := callerId, respondentId := some rid,
                    respondentAccepted := none } : Case)]).map (fun x =>
                if x.id = newId then { x with status := .AWAITING_RESPONSE } else x) := by
          simp [applyWrites, createCaseWrites, applyWrite, hr]
        rw [hcases]
        exact status_after_update _ newId .AWAITING_RESPONSE
      · have hn :
            (applyWrites db (createCaseWrites db callerId p newId cn)).notifications =
              db.notifications ++
                [{ userId := callerId, caseId := some newId,
                   ntype := "CASE_STATUS_UPDATE",
                   title := "Case Registered Successfully" },
                 { userId := rid, caseId := some newId,
                   ntype := "CASE_STATUS_UPDATE",
                   title := "New Case Filed Against You" }] := by
          simp [applyWrites, createCaseWrites, applyWrite, hr]
        rw [newNotifs, hn]
        simp
    · intro hr
      constructor
      · have hcases :
            (applyWrites db (createCaseWrites db callerId p newId cn)).cases =
              db.cases ++
                [({ id := newId, caseNumber := cn, status := .PENDING,
                    complainantId := callerId, respondentId := none,
                    respondentAccepted := none } : Case)] := by
          simp [applyWrites, createCaseWrites, applyWrite, hr]
        rw [hcases]
        intro c' hmem hid
        rcases List.mem_append.1 hmem with hmem | hmem
        · exact absurd hid (hfresh c' hmem)
        · rw [List.mem_singleton.1 hmem]
      · have hn :
            (applyWrites db (createCaseWrites db callerId p newId cn)).notifications =
              db.notifications ++
                [{ userId := callerId, caseId := some newId,
                   ntype := "CASE_STATUS_UPDATE",
                   title := "Case Registered Successfully" }] := by
          simp [applyWrites, createCaseWrites, applyWrite, hr]
        rw [newNotifs, hn]
        simp

/-- C2 amended: every successful state-changing operation creates exactly
one AuditEntry, but only the admin setStatus records the transition's
previousStatus/newStatus (in its metadata, where they do match the status
held before, and written after, the call); the createCase, respondToCase
and nominateWitnesses entries carry no metadata at all, and the
createPanel entry's metadata holds no statuses. -/
theorem C2_audit_per_operation :
    (∀ db callerId p newId cn db',
        createCase db callerId p newId cn = .ok db' →
        (newHistory db db').map (fun e => (e.action, e.metadata)) =
          [("CASE_CREATED", none)]) ∧
    (∀ db callerId caseId accepted db',
        respondToCase db callerId caseId accepted = .ok db' →
        (newHistory db db').map AuditEntry.metadata = [none]) ∧
    (∀ db callerId caseId emails db' ws,
        nominateWitnesses db callerId caseId emails = .ok (db', ws) →
        (newHistory db db').map (fun e => (e.action, e.metadata)) =
          [("WITNESSES_ADDED", none)]) ∧
    (∀ db adminId caseId lawyerId rsId smId db' pnl,
        createPanel db adminId caseId lawyerId rsId smId = .ok (db', pnl) →
        (newHistory db db').map
            (fun e => e.metadata.map fun m => (m.previousStatus, m.newStatus)) =
          [some (none, none)]) ∧
    (∀ db adminId caseId target reason db' c,
        db.cases.find? (fun c0 => c0.id == caseId) = some c →
        setStatus db adminId caseId target reason = .ok db' →
        (newHistory db db').map AuditEntry.metadata =
          [some { adminId := some adminId, previousStatus := some c.status,
                  newStatus := some target, reason := reason }] ∧
        ∀ c' ∈ db'.cases, c'.id = caseId → c'.status = target) := by
  refine ⟨?_, ?_, ?_, ?_, ?_⟩
  · intro db callerId p newId cn db' h
    unfold createCase at h
    split at h
    · simp at h
    · simp only [Except.ok.injEq] at h
      subst h
      cases hr : resolveRespondent db p <;>
        simp [newHistory, applyWrites, createCaseWrites, applyWrite, hr]
  · intro db callerId caseId accepted db' h
    unfold respondToCase at h
    split at h
    · simp at h
    · simp only [Except.ok.injEq] at h
      subst h
      simp [newHistory, applyWrites, respondWrites, applyWrite]
  · intro db callerId caseId emails db' ws h
    unfold nominateWitnesses at h
    split at h
    · simp at h
    · simp only [] at h
      split at h
      · simp at h
      · simp only [Except.ok.injEq, Prod.mk.injEq] at h
        obtain ⟨h, -⟩ := h
        subst h
        rw [applyWrites_append, applyWrites_append]
        rw [applyWrites_map_insertNotif]
        simp [newHistory, applyWrites_cons, applyWrites_nil, applyWrite]
  · intro db adminId caseId lawyerId rsId smId db' pnl h
    unfold createPanel at h
    split at h
    · simp at h
    · split at h
      · simp at h
      · split at h
        · simp at h
        · simp only [] at h
          split at h
          · simp at h
          · simp only [Except.ok.injEq, Prod.mk.injEq] at h
            obtain ⟨h, -⟩ := h
            subst h
            rename_i c hfind hpanel hstatus hlen
            cases hr : c.respondentId <;>
              simp [newHistory, createPanelWrites, applyWrites_append,
                applyWrites_cons, applyWrites_nil, applyWrite,
                applyWrites_map_insertNotif, hr]
  · intro db adminId caseId target reason db' c hc h
    unfold setStatus at h
    rw [hc] at h
    simp only [Except.ok.injEq] at h
    subst h
    have hid : c.id = caseId := by
      have hp := List.find?_some hc
      simpa using hp
    constructor
    · cases hr : c.respondentId <;>
        simp [newHistory, applyWrites, setStatusWrites, applyWrite, hr]
    · have hcases :
          (applyWrites db (setStatusWrites c adminId target reason)).cases =
            db.cases.map (fun x =>
              if x.id = caseId then { x with status := target } else x) := by
        cases hr : c.respondentId <;>
          simp [applyWrites, setStatusWrites, applyWrite, hr, hid]
      rw [hcases]
      exact status_after_update db.cases caseId target

/-- C6 amended: a nominateWitnesses call on an ACCEPTED case by the
complainant or respondent whose identities all resolve to registered users
succeeds even when some identity is already nominated for the same case:
the duplicate rows are silently skipped by createMany's skipDuplicates
(the witness table gains no row for an already-nominated identity), never
rejected with a CONFLICT error. -/
theorem C6_duplicates_silently_skipped (db : Db) (callerId caseId : Nat)
    (emails : List String) (c : Case)
    (hfind : db.cases.find? (witnessCasePred callerId caseId) = some c)
    (hresolve :
      (db.users.filter fun u => emails.contains u.email).length = emails.length) :
    ∃ db' ws, nominateWitnesses db callerId caseId emails = .ok (db', ws) ∧
      ∀ e, (db.witnesses.any fun w => w.caseId == caseId && w.email == e) = true →
        (db'.witnesses.filter fun w => w.caseId == caseId && w.email == e) =
          (db.witnesses.filter fun w => w.caseId == caseId && w.email == e) := by
  have hnot :
      ¬ ((db.users.filter fun u => emails.contains u.email).length ≠ emails.length) :=
    fun hne => hne hresolve
  cases hop : nominateWitnesses db callerId caseId emails with
  | error e =>
      exfalso
      unfold nominateWitnesses at hop
      rw [hfind] at hop
      simp only [] at hop
      rw [if_neg hnot] at hop
      simp at hop
  | ok pr =>
      obtain ⟨db', ws⟩ := pr
      refine ⟨db', ws, rfl, ?_⟩
      unfold nominateWitnesses at hop
      rw [hfind] at hop
      simp only [] at hop
      rw [if_neg hnot] at hop
      simp only [Except.ok.injEq, Prod.mk.injEq] at hop
      obtain ⟨hdb, -⟩ := hop
      have hwit : db'.witnesses = db.witnesses ++
          ((db.users.filter fun u => emails.contains u.email).map
            (witnessRow caseId)).filter (fun w =>
              !(db.witnesses.any fun w0 =>
                w0.caseId == w.caseId && w0.email == w.email)) := by
        rw [← hdb]
        simp [applyWrites_append, applyWrites_cons, applyWrites_nil,
          applyWrite, applyWrites_map_insertNotif]
      intro e he
      rw [hwit, List.filter_append]
      have hnil :
          ((((db.users.filter fun u => emails.contains u.email).map
              (witnessRow caseId)).filter (fun w =>
                !(db.witnesses.any fun w0 =>
                  w0.caseId == w.caseId && w0.email == w.email))).filter
            (fun w => w.caseId == caseId && w.email == e)) = [] := by
      -- every surviving row belongs to a not-yet-nominated identity, so a
      -- row matching an already-nominated key cannot survive the skip
        rw [List.filter_eq_nil_iff]
        intro w hw
        obtain ⟨hwmem, hskip⟩ := List.mem_filter.1 hw
        obtain ⟨u, hu, rfl⟩ := List.mem_map.1 hwmem
        simp only [witnessRow] at hskip ⊢
        intro hkey
        simp only [Bool.and_eq_true, beq_iff_eq] at hkey
        obtain ⟨-, hue⟩ := hkey
        rw [hue] at hskip
        simp only [he, Bool.not_true] at hskip
        exact Bool.false_ne_true hskip
      rw [hnil, List.append_nil]

/-- Witness for C2: the respond conjunct evaluated on the concrete `db4`. -/
theorem C2_audit_per_operation_witness :
    (newHistory db4 db4r).map AuditEntry.metadata = [none] :=
  C2_audit_per_operation.2.1 db4 2 10 true db4r rfl

/-- Witness for C3: the create-case fan-out evaluated on the concrete
`db1` with the linked payload. -/
theorem C3_createCase_status_notifs_witness :
    (∀ rid, resolveRespondent db1 payloadLinked = some rid →
        (∀ c' ∈ db3r.cases, c'.id = 10 → c'.status = .AWAITING_RESPONSE) ∧
        (newNotifs db1 db3r).map Notification.userId = [1, rid]) ∧
    (resolveRespondent db1 payloadLinked = none →
        (∀ c' ∈ db3r.cases, c'.id = 10 → c'.status = .PENDING) ∧
        (newNotifs db1 db3r).map Notification.userId = [1]) :=
  C3_createCase_status_notifs db1 1 payloadLinked 10 "RES-2025-000001" db3r
    rfl (by decide)

/-- Witness for C4: the respondent accepting the concrete `case10`. -/
theorem C4_respond_sets_status_witness :
    ∃ db', respondToCase db4 2 10 true = .ok db' ∧
      ∀ c' ∈ db'.cases, c'.id = 10 →
        c'.status = (if true then CaseStatus.ACCEPTED else .UNRESOLVED) :=
  C4_respond_sets_status db4 2 10 true case10 (by decide)

/-- Witness for C5: a non-respondent caller on the concrete `db4`. -/
theorem C5_respond_failure_is_404_witness :
    respondToCase db4 3 10 true = .error respondNotFoundErr ∧
    respondNotFoundErr.code = 404 :=
  C5_respond_failure_is_404 db4 3 10 true (by decide)

/-- Witness for C6: nominating the already-nominated `u3` on `db6`. -/
theorem C6_duplicates_silently_skipped_witness :
    ∃ db' ws, nominateWitnesses db6 1 12 ["w@example.com"] = .ok (db', ws) ∧
      ∀ e, (db6.witnesses.any fun w => w.caseId == 12 && w.email == e) = true →
        (db'.witnesses.filter fun w => w.caseId == 12 && w.email == e) =
          (db6.witnesses.filter fun w => w.caseId == 12 && w.email == e) :=
  C6_duplicates_silently_skipped db6 1 12 ["w@example.com"] case12
    (by decide) (by decide)

/-- Witness for C7: the two-row history of `case13` on `db7`. -/
theorem C7_history_sorted_desc_witness :
    List.Sorted historyDesc [h7b, h7a] ∧
    List.Perm [h7b, h7a] (db7.caseHistory.filter fun e => e.caseId == 13) :=
  C7_history_sorted_desc db7 1 13 [h7b, h7a] rfl

/-- Witness for C8: overriding the PENDING `case14` straight to RESOLVED. -/
theorem C8_admin_override_witness :
    ∃ db', setStatus db8 9 14 .RESOLVED none = .ok db' ∧
      (∀ c' ∈ db'.cases, c'.id = 14 → c'.status = .RESOLVED) ∧
      newHistory db8 db' =
        [{ caseId := 14, action := "STATUS_UPDATED_BY_ADMIN",
           description := "Status changed from " ++ statusName case14.status ++ " to "
             ++ statusName CaseStatus.RESOLVED
             ++ (match (none : Option String) with | some r => " - " ++ r | none => ""),
           performedById := none,
           metadata := some { adminId := some 9,
                              previousStatus := some case14.status,
                              newStatus := some CaseStatus.RESOLVED, reason := none },
           createdAt := db8.now }] :=
  C8_admin_override db8 9 14 .RESOLVED none case14 (by decide)

/-- Witness for C9: the complainant's cancel attempt on the ACCEPTED
`case15` is answered 403. -/
theorem C9_cancel_policy_witness :
    cancelCase db9 1 15 =
      .error { code := 403,
               message := "Complainant may cancel only before ACCEPTED" } :=
  C9_cancel_policy.1 db9 1 15 case15 u1 (by decide) (by decide) (by decide)
    (by decide) (by decide)

/-- Witness for C10: registering the admin email on `db1` yields the ADMIN
role. -/
theorem C10_admin_role_gate_witness :
    uAdmin.role = Role.ADMIN ↔ "admin@resolveit.com" = "admin@resolveit.com" :=
  C10_admin_role_gate.1 db1 9 "admin@resolveit.com" none "Admin"
    { db1 with users := db1.users ++ [uAdmin] } uAdmin rfl

end ResolveIt
